import Mathlib

/-!
Verification of the cab-booking dialogue agent (repository `b69`).

This file gives a shallow embedding, in Lean 4, of the state-manipulating
logic of the agent's graph nodes and services, translated directly from the
Python sources under `src/`:

* `src/models/drivers_model.py`       — driver record (projected to the fields
  the embedded code reads);
* `src/lngraph/tools/driver_tools.py` — the cache-based filter tool;
* `src/lngraph/nodes/trip_info_collection_node.py` — slot collector;
* `src/lngraph/nodes/booking_confirmation_node.py` — booking handler;
* `src/lngraph/nodes/filter_application_node.py`   — filter handler;
* `src/lngraph/nodes/more_drivers_node.py`         — pagination handler over
  the accumulated `all_drivers` collection;
* `src/lngraph/nodes/pagination_node.py`           — the parallel pagination
  handler of the `CabBookingGraph` wiring;
* `src/lngraph/nodes/entry_node.py`   — intent router;
* `src/lngraph/nodes/error_handler_node.py` — error categorisation and retry;
* `src/lngraph/graph.py`              — turn post-processing;
* `src/services/api_service.py`       — cache-backed backend client.

External effects (LLM calls, HTTP, Redis) are modelled as explicit inputs:
each node takes the outcome of its backend interaction as an argument, and
user-facing reply text that the Python code obtains from the LLM is
represented by small tags, since its exact wording is environmental.
State updates returned by nodes are applied to an explicit state record,
mirroring the LangGraph dict-merge semantics.
-/

namespace CabBot

/-- Python truthiness of an optional string: `None` and the empty string are
falsy, every other string is truthy. -/
def strTruthy : Option String → Bool
  | none => false
  | some s => !(s == "")

/-- Python truthiness of an optional integer: `None` and `0` are falsy. -/
def natTruthy : Option Nat → Bool
  | none => false
  | some n => !(n == 0)

/-- Projection of `DriverModel` (src/models/drivers_model.py) to the fields
read by the embedded nodes and tools.  `vehicleTypes` and `vehicleModels`
collect `vehicle_type` and `model` of the entries of `verified_vehicles`. -/
structure Driver where
  id : String
  name : String
  username : String
  phoneNo : String
  profileUrl : String
  vehicleTypes : List String
  vehicleModels : List String
  gender : String
  age : Int
  experience : Int
  connections : Int
  isPetAllowed : Bool
  profileVerified : Bool
  married : Bool
  deriving DecidableEq

/-- The computed field `constructed_profile_url` of `DriverModel`. -/
def Driver.constructedProfileUrl (d : Driver) : String :=
  "https://cabswale.ai/profile/" ++ d.username

/-- Python `selected_driver.verified_vehicles[0].model if ... else "Not specified"`. -/
def Driver.firstVehicleModel (d : Driver) : String :=
  d.vehicleModels.headD "Not specified"

/-- A filter entry of the `filter_obj` dictionary, restricted to the keys in
`ALLOWED_FILTER_KEYS` of `get_drivers_with_user_filter_via_cache_tool` that
the projected driver record carries. -/
inductive Filter where
  | vehicleTypes (vs : List String)
  | gender (g : String)
  | minAge (n : Int)
  | maxAge (n : Int)
  | isPetAllowed (b : Bool)
  | minConnections (n : Int)
  | minExperience (n : Int)
  | profileVerified (b : Bool)
  | married (b : Bool)
  deriving DecidableEq

/-- The inner `matches_filter` of `get_drivers_with_user_filter_via_cache_tool`
(src/lngraph/tools/driver_tools.py).  `vehicle_types` matches when any
requested type is among the driver's verified vehicle types; `min_` / `max_`
keys compare the corresponding attribute; the remaining keys test equality. -/
def matchesFilter (d : Driver) : Filter → Bool
  | .vehicleTypes vs => vs.any (fun v => d.vehicleTypes.contains v)
  | .gender g => d.gender == g
  | .minAge n => d.age >= n
  | .maxAge n => d.age <= n
  | .isPetAllowed b => d.isPetAllowed == b
  | .minConnections n => d.connections >= n
  | .minExperience n => d.experience >= n
  | .profileVerified b => d.profileVerified == b
  | .married b => d.married == b

/-- The list comprehension of `get_drivers_with_user_filter_via_cache_tool`:
keep the cached drivers that satisfy every filter entry. -/
def cacheFilterDrivers (raw : List Driver) (filters : List Filter) : List Driver :=
  raw.filter (fun d => filters.all (matchesFilter d))

/-- Embeds `get_drivers_with_user_filter_via_cache_tool`: read the cached page
for (city, page); a missing page yields the failure message, otherwise the
cached drivers are filtered client-side and returned with their count. -/
def getDriversWithUserFilterViaCacheTool (cachedPage : Option (List Driver))
    (filters : List Filter) : Except String (List Driver) :=
  match cachedPage with
  | none => .error "No drivers found"
  | some raw => .ok (cacheFilterDrivers raw filters)

/-! ## Slot collector — `TripInfoCollectionNode.execute`

The LLM extraction step and the merge with the existing slots
(`updated_pickup = trip_info.pickup_location or existing_pickup` and so on)
happen before the completion logic; the embedding takes the merged slot
values as inputs and reproduces the missing-information detection, the
completion flag and the resulting update dictionary verbatim. -/

/-- The update dictionary returned by `TripInfoCollectionNode.execute`.
`missingInfo` is the node's internal `missing_info` list; `searchCity` is
`some pickup` exactly when the node adds `search_city` to the update; the
user-facing prompt built from `missing_info` is abstracted to the list
itself in `lastError`. -/
structure TripInfoUpdate where
  pickupLocation : Option String
  dropLocation : Option String
  tripType : Option String
  tripDuration : Option Nat
  fullTripDetails : Bool
  missingInfo : List String
  searchCity : Option String
  lastError : Option (List String)
  failedNode : Option String
  deriving DecidableEq

/-- Completion logic of `TripInfoCollectionNode.execute` (lines 140-196),
applied to the merged slot values.  Mirrors the Python truthiness of
`missing_info` detection and of
`has_complete_info = pickup and drop and trip_type and (trip_type or duration)`,
including the final conjunct exactly as written in the source. -/
def tripInfoCompletion (pickup drop tripType : Option String)
    (duration : Option Nat) : TripInfoUpdate :=
  let missingInfo :=
    (if !(strTruthy pickup) then ["pickup location"] else []) ++
    (if !(strTruthy drop) then ["destination"] else []) ++
    (if !(strTruthy tripType) then ["trip type"] else []) ++
    (if (tripType == some "round-trip" || tripType == some "multi-city") &&
        !(natTruthy duration) then ["trip duration (how many days)"] else [])
  let hasCompleteInfo :=
    strTruthy pickup && strTruthy drop && strTruthy tripType &&
      (strTruthy tripType || natTruthy duration)
  if hasCompleteInfo then
    { pickupLocation := pickup, dropLocation := drop, tripType := tripType,
      tripDuration := duration, fullTripDetails := true,
      missingInfo := missingInfo, searchCity := pickup,
      lastError := none, failedNode := none }
  else
    { pickupLocation := pickup, dropLocation := drop, tripType := tripType,
      tripDuration := duration, fullTripDetails := false,
      missingInfo := missingInfo, searchCity := none,
      lastError := some missingInfo, failedNode := some "trip_info_collection" }

/-! ## Booking handler — `BookingConfirmationNode.__call__`

The node reads `selected_driver`, `pickup_city`, `destination_city` and
`current_page` from the state, asks the LLM whether the request needs a
destination (`_check_if_destination_needed`, taken as the input
`needsDestination`), and then calls the backend booking tool.  The three
observable outcomes of `book_or_confirm_ride_with_driver` are: a success
dictionary, a `success=False` dictionary, and a raised exception; they are
the constructors of `BackendBooking`.  The LLM-generated reply strings are
represented by `Reply` tags.  The outer `except` of the node (lines
163-168) fires only when the node body itself raises, which the embedding
treats as unreachable because every generation helper catches its own
exceptions. -/

/-- Outcome of the backend booking call `book_or_confirm_ride_with_driver`. -/
inductive BackendBooking where
  | ok (name phone profile : String)
  | failed (msg : String)
  | throws
  deriving DecidableEq

/-- True exactly on the `success=False` outcome. -/
def BackendBooking.isFailed : BackendBooking → Bool
  | .failed _ => true
  | _ => false

/-- The `booking_details` dictionary built by the node. -/
structure BookingDetails where
  driverId : String
  driverName : String
  driverPhone : String
  driverProfile : String
  pickupCity : Option String
  destinationCity : Option String
  vehicle : String
  deriving DecidableEq

/-- Tags for the assistant replies appended by the embedded nodes; the text
itself is produced by the LLM (with literal fallbacks) and is environmental. -/
inductive Reply where
  | noDriverSelected
  | missingBookingInfo
  | bookingConfirmation
  | bookingError
  | searchResults
  | searchError
  | fetchingMore
  | filterResults
  | filterError
  deriving DecidableEq

/-- The slice of `AgentState` read and written by `BookingConfirmationNode`. -/
structure BookingState where
  selectedDriver : Option Driver
  pickupCity : Option String
  destinationCity : Option String
  currentPage : Nat
  bookingStatus : String
  bookingDetails : Option BookingDetails
  lastError : Option String
  replies : List Reply
  nextNode : String
  deriving DecidableEq

/-- The `missing_info` list of `BookingConfirmationNode.__call__`
(lines 66-77): pickup is always required; destination only when
`_check_if_destination_needed` answered true. -/
def bookingMissingInfo (needsDestination : Bool) (s : BookingState) : List String :=
  (if !(strTruthy s.pickupCity) then ["pickup location"] else []) ++
  (if needsDestination && !(strTruthy s.destinationCity) then ["destination"] else [])

/-- Embeds `BookingConfirmationNode.__call__` (src/lngraph/nodes/
booking_confirmation_node.py, lines 49-161).  No driver selected: reply and
wait.  Missing info: reply, `booking_status := "pending_info"`, wait.
Otherwise the backend call decides: success confirms and stores the
returned contact details; `success=False` appends an error reply and sets
`booking_status := "failed"`; a raised exception falls back to the cached
driver record, still confirming the booking (lines 136-159). -/
def bookingConfirmationNode (needsDestination : Bool)
    (backend : BackendBooking) (s : BookingState) : BookingState :=
  match s.selectedDriver with
  | none =>
      { s with replies := s.replies ++ [.noDriverSelected],
               nextNode := "wait_for_user_input" }
  | some d =>
      if bookingMissingInfo needsDestination s ≠ [] then
        { s with replies := s.replies ++ [.missingBookingInfo],
                 bookingStatus := "pending_info",
                 nextNode := "wait_for_user_input" }
      else
        match backend with
        | .ok name phone profile =>
            { s with bookingStatus := "confirmed",
                     bookingDetails := some
                       { driverId := d.id, driverName := name,
                         driverPhone := phone, driverProfile := profile,
                         pickupCity := s.pickupCity,
                         destinationCity := s.destinationCity,
                         vehicle := d.firstVehicleModel },
                     replies := s.replies ++ [.bookingConfirmation],
                     nextNode := "booking_complete_node" }
        | .failed _ =>
            { s with replies := s.replies ++ [.bookingError],
                     bookingStatus := "failed",
                     nextNode := "wait_for_user_input" }
        | .throws =>
            { s with bookingStatus := "confirmed",
                     bookingDetails := some
                       { driverId := d.id, driverName := d.name,
                         driverPhone := d.phoneNo,
                         driverProfile := d.constructedProfileUrl,
                         pickupCity := s.pickupCity,
                         destinationCity := s.destinationCity,
                         vehicle := d.firstVehicleModel },
                     replies := s.replies ++ [.bookingConfirmation],
                     nextNode := "booking_complete_node" }

/-! ## Intent router — `EntryNode._determine_next_node`

A pure function of the classified intent and the state; the only state field
it consults is `pickup_city` (Python truthiness).  The intent constants are
the `INTENT_*` literals of `EntryNode`. -/

/-- Embeds `EntryNode._determine_next_node` (src/lngraph/nodes/entry_node.py,
lines 314-341): search and filter intents without a pickup city go to city
clarification; every other route is the `intent_to_node` table with
`general_response_node` as the default. -/
def determineNextNode (intent : String) (pickupCity : Option String) : String :=
  if (intent == "search" || intent == "filter") && !(strTruthy pickupCity) then
    "city_clarification_node"
  else
    match intent with
    | "search" => "driver_search_node"
    | "filter" => "filter_application_node"
    | "driver_info" => "driver_details_node"
    | "booking" => "booking_confirmation_node"
    | "more_results" => "pagination_node"
    | "general_query" => "general_response_node"
    | _ => "general_response_node"

/-! ## Pagination over the accumulated collection — `MoreDriversNode.execute`

This is the handler that owns the `all_drivers` accumulation used by the
live entry point (src/main.py initialises `all_drivers` in the conversation
state).  The backend search tool outcome is the input `outcome`; the filter
normalisation only shapes the API parameters and is subsumed by it. -/

/-- The minimal `DriverDetailsForState` projection the node stores:
`{"driver_name": ..., "driver_id": ...}`. -/
structure DriverEntry where
  driverName : String
  driverId : String
  deriving DecidableEq

/-- The projection applied to each fetched driver before it is stored. -/
def driverEntries (ds : List Driver) : List DriverEntry :=
  ds.map (fun d => { driverName := d.name, driverId := d.id })

/-- One page returned by the backend search tool. -/
structure SearchPage where
  drivers : List Driver
  total : Nat
  hasMore : Bool
  deriving DecidableEq

/-- Outcome of one `search_drivers_tool` invocation. -/
inductive SearchOutcome where
  | ok (page : SearchPage)
  | err (msg : String)
  deriving DecidableEq

/-- The slice of the conversation state read and written by
`MoreDriversNode`. -/
structure MoreState where
  searchCity : Option String
  hasMoreResults : Bool
  currentPage : Nat
  allDrivers : List DriverEntry
  currentDrivers : List DriverEntry
  totalResults : Nat
  lastError : Option String
  failedNode : Option String
  deriving DecidableEq

/-- Result of one `MoreDriversNode.execute` run: the merged state plus the
page number passed to the search tool (`none` when no backend call is made). -/
structure MoreResult where
  s : MoreState
  requestedPage : Option Nat
  deriving DecidableEq

/-- Char-list prefix test backing the substring check. -/
def leadsWith : List Char → List Char → Bool
  | [], _ => true
  | _ :: _, [] => false
  | p :: ps, c :: cs => p == c && leadsWith ps cs

/-- Occurrence of a character sequence inside another. -/
def occursIn (pat : List Char) : List Char → Bool
  | [] => pat.isEmpty
  | c :: cs => leadsWith pat (c :: cs) || occursIn pat cs

/-- Python `pat in s` on strings, computed over the character lists so that
it reduces inside the kernel. -/
def containsSubstr (s pat : String) : Bool :=
  occursIn pat.data s.data

/-- ASCII lowercasing of a string (Python `.lower()` restricted to the
ASCII patterns the error table uses), computed over the character list. -/
def lowerString (s : String) : String :=
  ⟨s.data.map Char.toLower⟩

/-- Embeds `MoreDriversNode.execute` (src/lngraph/nodes/more_drivers_node.py,
lines 59-161).  Guard on the search city (Python falsiness: unset or empty
refuses) and on `has_more_results`; then fetch page `current_page + 1`; a successful non-empty page is projected to
`DriverEntry`s, appended to `all_drivers` and becomes `current_drivers`;
every failure path only sets `last_error` / `failed_node`. -/
def moreDriversNode (s : MoreState) (outcome : SearchOutcome) : MoreResult :=
  if !(strTruthy s.searchCity) then
    { s := { s with
        lastError := some "Please tell me which city you are looking in first.",
        failedNode := some "more_drivers_node" },
      requestedPage := none }
  else if !s.hasMoreResults then
    { s := { s with
        lastError := some "I have already shown you all the available drivers for your search criteria.",
        failedNode := some "more_drivers_node" },
      requestedPage := none }
  else
    let nextPage := s.currentPage + 1
    match outcome with
    | .ok page =>
        if page.drivers = [] then
          { s := { s with
              lastError := some "No more drivers found matching your criteria.",
              failedNode := some "more_drivers_node" },
            requestedPage := some nextPage }
        else
          let newEntries := driverEntries page.drivers
          { s := { s with
              currentPage := nextPage,
              currentDrivers := newEntries,
              allDrivers := s.allDrivers ++ newEntries,
              totalResults := page.total,
              hasMoreResults := page.hasMore,
              lastError := none,
              failedNode := none },
            requestedPage := some nextPage }
    | .err msg =>
        if containsSubstr msg "No drivers found" then
          { s := { s with
              lastError := some "No more drivers found matching your current filters. This might be the end of available drivers.",
              failedNode := some "more_drivers_node" },
            requestedPage := some nextPage }
        else
          { s := { s with
              lastError := some ("Failed to fetch more drivers: " ++ msg),
              failedNode := some "more_drivers_node" },
            requestedPage := some nextPage }

/-! ## Filter handler — `FilterApplicationNode.__call__`

The node first runs the cache-based client-side filter tool; only when that
yields fewer than `MIN_RESULTS_THRESHOLD = 5` drivers while
`has_more_results` is set does it issue one fresh backend search
(`_search_with_filters`, which calls `search_drivers_tool` with
`use_cache=False` at the current page).  `backendSearchCalls` is a trace
field counting the fresh backend searches issued during the run. -/

/-- The threshold constant `MIN_RESULTS_THRESHOLD` of `FilterApplicationNode`. -/
def MIN_RESULTS_THRESHOLD : Nat := 5

/-- The slice of `AgentState` read by `FilterApplicationNode`. -/
structure FilterAppState where
  pickupCity : Option String
  currentPage : Nat
  activeFilters : List Filter
  currentDrivers : List Driver
  hasMoreResults : Bool
  totalResults : Nat
  lastError : Option String
  replies : List Reply
  deriving DecidableEq

/-- Result of one `FilterApplicationNode.__call__` run. -/
structure FilterAppResult where
  currentDrivers : List Driver
  totalResults : Nat
  hasMoreResults : Bool
  lastError : Option String
  replies : List Reply
  nextNode : String
  backendSearchCalls : Nat
  deriving DecidableEq

/-- Embeds `FilterApplicationNode.__call__` (src/lngraph/nodes/
filter_application_node.py, lines 40-158).  `cachedPage` is the Redis page
the cache tool reads; `topUp` is what the single fresh `_search_with_filters`
call would return.  The routing at the end uses the cache-filtered count
`total_filtered`, exactly as in the source. -/
def filterApplicationNode (s : FilterAppState) (cachedPage : Option (List Driver))
    (topUp : SearchOutcome) : FilterAppResult :=
  if s.currentDrivers = [] then
    { currentDrivers := s.currentDrivers, totalResults := s.totalResults,
      hasMoreResults := s.hasMoreResults, lastError := s.lastError,
      replies := s.replies, nextNode := "driver_search_node",
      backendSearchCalls := 0 }
  else
    match getDriversWithUserFilterViaCacheTool cachedPage s.activeFilters with
    | .ok filteredDrivers =>
        let totalFiltered := filteredDrivers.length
        let nextNode :=
          if totalFiltered = 0 then "filter_relaxation_node"
          else "wait_for_user_input"
        if totalFiltered < MIN_RESULTS_THRESHOLD && s.hasMoreResults then
          match topUp with
          | .ok page =>
              { currentDrivers := page.drivers, totalResults := page.total,
                hasMoreResults := page.hasMore, lastError := s.lastError,
                replies := s.replies ++ [.fetchingMore, .filterResults],
                nextNode := nextNode, backendSearchCalls := 1 }
          | .err _ =>
              { currentDrivers := filteredDrivers, totalResults := totalFiltered,
                hasMoreResults := s.hasMoreResults, lastError := s.lastError,
                replies := s.replies ++ [.fetchingMore, .filterResults],
                nextNode := nextNode, backendSearchCalls := 1 }
        else
          { currentDrivers := filteredDrivers, totalResults := totalFiltered,
            hasMoreResults := s.hasMoreResults, lastError := s.lastError,
            replies := s.replies ++ [.filterResults],
            nextNode := nextNode, backendSearchCalls := 0 }
    | .error msg =>
        { currentDrivers := s.currentDrivers, totalResults := s.totalResults,
          hasMoreResults := s.hasMoreResults, lastError := some msg,
          replies := s.replies ++ [.filterError],
          nextNode := "error_recovery_node", backendSearchCalls := 0 }

/-! ## Search handler — `DriverSearchNode.__call__`

Only the result handling is relevant here: a successful tool response
replaces `current_drivers` with the returned page (possibly empty), appends
the generated listing reply, and routes to `no_results_handler_node` when
the page is empty; a failed response records `last_error` and routes to
error recovery. -/

/-- The slice of `AgentState` read and written by `DriverSearchNode`. -/
structure SearchState where
  pickupCity : Option String
  currentPage : Nat
  currentDrivers : List Driver
  totalResults : Nat
  hasMoreResults : Bool
  lastError : Option String
  replies : List Reply
  nextNode : String
  deriving DecidableEq

/-- Embeds the result handling of `DriverSearchNode.__call__`
(src/lngraph/nodes/driver_search_node.py, lines 85-132). -/
def driverSearchNode (s : SearchState) (outcome : SearchOutcome) : SearchState :=
  match outcome with
  | .ok page =>
      { s with currentDrivers := page.drivers,
               totalResults := page.total,
               hasMoreResults := page.hasMore,
               replies := s.replies ++ [.searchResults],
               nextNode := if page.drivers = [] then "no_results_handler_node"
                           else "wait_for_user_input" }
  | .err msg =>
      { s with lastError := some msg,
               replies := s.replies ++ [.searchError],
               nextNode := "error_recovery_node" }

/-! ## Turn post-processing — `CabBookingGraph.process_message`

The graph invocation itself is abstracted as a function from the message
list (with the new human message appended) to the resulting message list;
the embedding keeps the guarantee logic of lines 156-195: after the run, if
no `AIMessage` different from the first stored message is found, a fallback
assistant reply is appended. -/

/-- Conversation messages: the `HumanMessage` / `AIMessage` distinction. -/
inductive Msg where
  | human (content : String)
  | ai (content : String)
  deriving DecidableEq

/-- True on assistant messages. -/
def Msg.isAI : Msg → Bool
  | .ai _ => true
  | .human _ => false

/-- The fallback reply appended when the graph produced no assistant
response (content labelled; the literal wording lives in graph.py line 188). -/
def fallbackReply : Msg := .ai "fallback: trouble processing request, please try again"

/-- The has-AI-response scan of `process_message` (lines 177-191): look for
an `AIMessage` that is not the first stored message, else append the
fallback reply. -/
def ensureAIReply (first : Msg) (result : List Msg) : List Msg :=
  if result.any (fun m => m.isAI && !(m == first)) then result
  else result ++ [fallbackReply]

/-- Embeds `CabBookingGraph.process_message` (src/lngraph/graph.py, lines
149-195): append the user message, run the graph (`graphRun`), then enforce
the assistant-reply guarantee. -/
def processMessage (prior : List Msg) (userMsg : String)
    (graphRun : List Msg → List Msg) : List Msg :=
  let msgs := prior ++ [Msg.human userMsg]
  let first := match msgs with
    | [] => Msg.human userMsg
    | m :: _ => m
  ensureAIReply first (graphRun msgs)

/-! ## Error handler — `ErrorHandlerNode`

`_categorize_error` scans the `ERROR_CATEGORIES` table in order and returns
the first category one of whose lowercase patterns occurs in the lowercase
error message.  `_is_retryable_context` refuses retry in terminal
conversation states and when the last three recorded errors share one
category.  The node then either routes to recovery with an incremented
retry counter, or to wait-for-user-input with the counter reset; either way
it records the category and clears `last_error`. -/

/-- One entry of `ERROR_CATEGORIES`: category name, retry flag, patterns. -/
structure ErrorCategory where
  name : String
  retry : Bool
  patterns : List String
  deriving DecidableEq

/-- The `ERROR_CATEGORIES` table of `ErrorHandlerNode`, in source order. -/
def ERROR_CATEGORIES : List ErrorCategory :=
  [ { name := "api_error", retry := true,
      patterns := ["API", "HTTP", "connection", "timeout", "network"] },
    { name := "validation_error", retry := false,
      patterns := ["validation", "invalid", "missing required", "parameter"] },
    { name := "data_error", retry := false,
      patterns := ["KeyError", "AttributeError", "TypeError", "model_validate"] },
    { name := "cache_error", retry := true,
      patterns := ["cache", "redis", "storage"] },
    { name := "tool_error", retry := true,
      patterns := ["tool", "function", "failed to execute"] } ]

/-- Embeds `ErrorHandlerNode._categorize_error` (lines 157-179): first
matching category in table order, defaulting to a retryable unknown. -/
def categorizeError (errorMessage : String) : ErrorCategory :=
  match ERROR_CATEGORIES.find?
      (fun c => c.patterns.any
        (fun p => containsSubstr (lowerString errorMessage) (lowerString p))) with
  | some c => c
  | none => { name := "unknown", retry := true, patterns := [] }

/-- Embeds `ErrorHandlerNode._is_retryable_context` (lines 181-205) on the
conversation state and the recorded error categories. -/
def isRetryableContext (conversationState : Option String)
    (errorHistory : List String) : Bool :=
  if conversationState == some "booking_complete" ||
     conversationState == some "conversation_ended" then
    false
  else if 3 ≤ errorHistory.length then
    match errorHistory.drop (errorHistory.length - 3) with
    | [] => true
    | c :: rest => if rest.all (fun x => x == c) then false else true
  else
    true

/-- The slice of `AgentState` read by `ErrorHandlerNode`. -/
structure ErrHState where
  lastError : Option String
  retryCount : Nat
  conversationState : Option String
  errorHistory : List String
  deriving DecidableEq

/-- The update produced by one `ErrorHandlerNode.__call__` run. -/
structure ErrHResult where
  nextNode : String
  retryCount : Nat
  errorHistory : List String
  lastError : Option String
  deriving DecidableEq

/-- Embeds `ErrorHandlerNode.__call__` (src/lngraph/nodes/
error_handler_node.py, lines 65-140): compute the category, decide
`should_retry = category.retry and retry_count < 3 and retryable-context`,
route accordingly, append the category to the error history and clear
`last_error`. -/
def errorHandlerNode (s : ErrHState) : ErrHResult :=
  let msg := s.lastError.getD "Unknown error"
  let cat := categorizeError msg
  let shouldRetry := cat.retry && decide (s.retryCount < 3) &&
    isRetryableContext s.conversationState s.errorHistory
  if shouldRetry then
    { nextNode := "error_recovery_node", retryCount := s.retryCount + 1,
      errorHistory := s.errorHistory ++ [cat.name], lastError := none }
  else
    { nextNode := "wait_for_user_input", retryCount := 0,
      errorHistory := s.errorHistory ++ [cat.name], lastError := none }

/-- Helper predicate: the error history ends in three entries of one
category (the configuration `_is_retryable_context` refuses to retry). -/
def lastThreeSameCategory (h : List String) : Bool :=
  if 3 ≤ h.length then
    match h.drop (h.length - 3) with
    | [] => false
    | c :: rest => rest.all (fun x => x == c)
  else
    false

/-! ## Backend client cache — `DriversAPIClient`

The Redis cache is modelled as an association list from keys to stored
responses; `set` prepends, `lookup` finds the most recent entry, and TTL
expiry is modelled by the entry being absent.  The HTTP layer is the input
function `http` from the applied filters to an outcome, so that a real
fetch may depend on them while a cache hit cannot. -/

/-- The payload cached for one `(session, city, page)` key: the parsed
`APIResponse` with its `success` flag. -/
structure CachedResponse where
  success : Bool
  driverIds : List String
  total : Nat
  hasMore : Bool
  deriving DecidableEq

/-- The cache keyed by the strings `_generate_cache_key` produces. -/
abbrev Cache := List (String × CachedResponse)

/-- Embeds `DriversAPIClient._generate_cache_key` (src/services/
api_service.py, lines 22-24): the key is built from the session id, the
city and the page only. -/
def generateCacheKey (sessionId city : String) (page : Nat) : String :=
  sessionId ++ "_" ++ city ++ "_" ++ toString page

/-- Outcome of the HTTP GET performed by `get_drivers` on a cache miss. -/
inductive HttpOutcome where
  | ok (resp : CachedResponse)
  | requestError (msg : String)
  deriving DecidableEq

/-- Result of one `get_drivers` call together with the cache it leaves
behind. -/
structure ApiResult where
  success : Bool
  data : Option CachedResponse
  message : Option String
  cache : Cache
  deriving DecidableEq

/-- The fetch-then-cache tail of `get_drivers` (lines 190-220): call the
backend with the request filters; a successful response is cached under the
key when `use_cache` holds and the response's own `success` flag is set. -/
def fetchAndCache (cache : Cache) (key : String) (useCache : Bool)
    (filters : List Filter) (http : List Filter → HttpOutcome) : ApiResult :=
  match http filters with
  | .ok resp =>
      { success := true, data := some resp, message := none,
        cache := if useCache && resp.success then (key, resp) :: cache
                 else cache }
  | .requestError msg =>
      { success := false, data := none, message := some msg, cache := cache }

/-- Embeds `DriversAPIClient.get_drivers` (src/services/api_service.py,
lines 106-220) at the cache level: with `use_cache` set, a present cache
entry for `(session, city, page)` is returned as-is before the request
parameters — filters included — are ever used; otherwise the backend is
consulted and a successful response cached. -/
def getDrivers (cache : Cache) (sessionId city : String) (page : Nat)
    (filters : List Filter) (useCache : Bool)
    (http : List Filter → HttpOutcome) : ApiResult :=
  let key := generateCacheKey sessionId city page
  if useCache then
    match cache.lookup key with
    | some data => { success := true, data := some data, message := none,
                     cache := cache }
    | none => fetchAndCache cache key useCache filters http
  else
    fetchAndCache cache key useCache filters http

/-! ## Concrete data used by the closed theorems below -/

/-- A concrete driver record family for evaluating the embedded nodes. -/
def sampleDriver (i : Nat) : Driver :=
  { id := "drv" ++ toString i, name := "Driver" ++ toString i,
    username := "user" ++ toString i, phoneNo := "90000" ++ toString i,
    profileUrl := "https://cabswale.ai/p/" ++ toString i,
    vehicleTypes := ["suv"], vehicleModels := ["Innova"],
    gender := "male", age := 30, experience := 5, connections := 10,
    isPetAllowed := true, profileVerified := true, married := false }

/-- Booking state with a selected driver, a pickup city, and a prior
booking status of `"none"`. -/
def bookingCexState : BookingState :=
  { selectedDriver := some (sampleDriver 1), pickupCity := some "delhi",
    destinationCity := none, currentPage := 1, bookingStatus := "none",
    bookingDetails := none, lastError := none, replies := [],
    nextNode := "booking_confirmation_node" }

/-- Filter state with existing results and an active gender filter. -/
def filterCexState : FilterAppState :=
  { pickupCity := some "delhi", currentPage := 1,
    activeFilters := [.gender "male"], currentDrivers := [sampleDriver 0],
    hasMoreResults := true, totalResults := 10, lastError := none,
    replies := [] }

/-- A cached page of five drivers, all matching the male-gender filter. -/
def cachedFivePage : List Driver := (List.range 5).map sampleDriver

/-- Filter state for the below-threshold scenario with an SUV filter. -/
def filterLowState : FilterAppState :=
  { pickupCity := some "delhi", currentPage := 1,
    activeFilters := [.vehicleTypes ["suv"]],
    currentDrivers := [sampleDriver 0], hasMoreResults := true,
    totalResults := 10, lastError := none, replies := [] }

/-- The cached page for the below-threshold scenario: three matching drivers. -/
def lowCachedPage : List Driver := [sampleDriver 1, sampleDriver 2, sampleDriver 3]

/-- The single top-up fetch result for the below-threshold scenario: a fresh
page of two different drivers. -/
def lowTopUp : SearchOutcome :=
  .ok { drivers := [sampleDriver 4, sampleDriver 5], total := 5, hasMore := false }

/-- Pagination state with an active search and more results available. -/
def moreWitState : MoreState :=
  { searchCity := some "delhi", hasMoreResults := true, currentPage := 1,
    allDrivers := [{ driverName := "Driver1", driverId := "drv1" }],
    currentDrivers := [{ driverName := "Driver1", driverId := "drv1" }],
    totalResults := 12, lastError := none, failedNode := none }

/-- The page fetched by the pagination witness. -/
def moreWitPage : SearchPage :=
  { drivers := [sampleDriver 2, sampleDriver 3], total := 12, hasMore := true }

/-- Error-handler state after three consecutive api-category failures, with
a fresh retryable error raised. -/
def threeApiFailState : ErrHState :=
  { lastError := some "API timeout while contacting server", retryCount := 0,
    conversationState := none,
    errorHistory := ["api_error", "api_error", "api_error"] }

/-- A successful backend search page carrying zero drivers. -/
def zeroPage : SearchPage :=
  { drivers := [], total := 0, hasMore := false }

/-- The cached backend response used by the cache-key witness. -/
def witResp : CachedResponse :=
  { success := true, driverIds := ["drv1", "drv2"], total := 2, hasMore := false }

/-! ## Theorems -/

/-- C2: in `TripInfoCollectionNode.execute` the final conjunct of
`has_complete_info` is `(trip_type or duration)`, which is already implied
by the preceding `trip_type` conjunct, so a round-trip with no duration is
marked complete: at pickup "delhi", drop "mumbai", trip type "round-trip"
and no duration, the node sets `full_trip_details` to true, sets
`search_city` and clears the stale error, even though its own
`missing_info` list records the trip duration as missing. -/
theorem tripInfo_roundTrip_without_duration_marked_complete :
    (tripInfoCompletion (some "delhi") (some "mumbai") (some "round-trip")
      none).fullTripDetails = true ∧
    (tripInfoCompletion (some "delhi") (some "mumbai") (some "round-trip")
      none).missingInfo = ["trip duration (how many days)"] ∧
    (tripInfoCompletion (some "delhi") (some "mumbai") (some "round-trip")
      none).searchCity = some "delhi" ∧
    (tripInfoCompletion (some "delhi") (some "mumbai") (some "round-trip")
      none).lastError = none := by
  refine ⟨rfl, rfl, rfl, rfl⟩

/-- C1 counterexample: when the backend confirmation call raises, the
booking node still sets `booking_status` to `"confirmed"` and creates a
booking record from the cached driver data, although the prior status was
`"none"` and the backend call did not succeed. -/
theorem bookingConfirmation_confirms_on_backend_throw :
    (bookingConfirmationNode false .throws bookingCexState).bookingStatus
        = "confirmed" ∧
    (bookingConfirmationNode false .throws
        bookingCexState).bookingDetails.isSome = true := by
  refine ⟨rfl, rfl⟩

/-- C1 amended: starting from booking status `"none"` with no prior record,
`BookingConfirmationNode` ends with status `"confirmed"` — and creates a
booking record — exactly when a driver is selected, the pickup city (and
the destination, when the request needs one) is present, and the backend
call does not return `success=False`; a raised backend call also confirms.
Neither `fullTripDetails` nor membership of the driver in an accumulated
driver collection is consulted. -/
theorem bookingConfirmation_confirmed_iff (needsDest : Bool)
    (backend : BackendBooking) (s : BookingState)
    (hst : s.bookingStatus = "none") (hbd : s.bookingDetails = none) :
    ((bookingConfirmationNode needsDest backend s).bookingStatus = "confirmed" ↔
      s.selectedDriver.isSome = true ∧
        bookingMissingInfo needsDest s = [] ∧ backend.isFailed = false) ∧
    ((bookingConfirmationNode needsDest backend s).bookingDetails.isSome = true ↔
      s.selectedDriver.isSome = true ∧
        bookingMissingInfo needsDest s = [] ∧ backend.isFailed = false) := by
  cases hsel : s.selectedDriver with
  | none =>
      simp [bookingConfirmationNode, hsel, hst, hbd]
  | some d =>
      by_cases hmiss : bookingMissingInfo needsDest s = []
      · cases backend <;>
          simp [bookingConfirmationNode, hsel, hmiss, BackendBooking.isFailed,
            hst, hbd]
      · simp [bookingConfirmationNode, hsel, hmiss, hst, hbd]

/-- C1 witness: the amended characterisation evaluated at a successful
backend call on a concrete state. -/
theorem bookingConfirmation_confirmed_iff_witness :
    ((bookingConfirmationNode false (.ok "Driver1" "900001" "u1")
        bookingCexState).bookingStatus = "confirmed" ↔
      bookingCexState.selectedDriver.isSome = true ∧
        bookingMissingInfo false bookingCexState = [] ∧
        (BackendBooking.ok "Driver1" "900001" "u1").isFailed = false) ∧
    ((bookingConfirmationNode false (.ok "Driver1" "900001" "u1")
        bookingCexState).bookingDetails.isSome = true ↔
      bookingCexState.selectedDriver.isSome = true ∧
        bookingMissingInfo false bookingCexState = [] ∧
        (BackendBooking.ok "Driver1" "900001" "u1").isFailed = false) :=
  bookingConfirmation_confirmed_iff false (.ok "Driver1" "900001" "u1")
    bookingCexState rfl rfl

/-- C6 counterexample: at a concrete state with prior booking status
`"none"` and no recorded error, a backend confirmation failure leaves
`last_error` empty (the failure message goes into the reply stream) and
changes `booking_status` to `"failed"` rather than leaving it unchanged. -/
theorem bookingFailure_changes_status_without_lastError :
    (bookingConfirmationNode false (.failed "driver unavailable")
        bookingCexState).bookingStatus = "failed" ∧
    (bookingConfirmationNode false (.failed "driver unavailable")
        bookingCexState).bookingStatus ≠ bookingCexState.bookingStatus ∧
    (bookingConfirmationNode false (.failed "driver unavailable")
        bookingCexState).lastError = none := by
  refine ⟨rfl, by decide, rfl⟩

/-- C6 amended: when the backend confirmation call returns
`success=False`, the node appends a booking-error reply, sets
`booking_status` to `"failed"`, and leaves `last_error` and the booking
record untouched; the user may retry by issuing another booking turn. -/
theorem bookingFailure_behaviour (needsDest : Bool) (msg : String)
    (s : BookingState) (d : Driver) (hsel : s.selectedDriver = some d)
    (hmiss : bookingMissingInfo needsDest s = []) :
    (bookingConfirmationNode needsDest (.failed msg) s).bookingStatus
        = "failed" ∧
    (bookingConfirmationNode needsDest (.failed msg) s).lastError
        = s.lastError ∧
    (bookingConfirmationNode needsDest (.failed msg) s).bookingDetails
        = s.bookingDetails ∧
    (bookingConfirmationNode needsDest (.failed msg) s).replies
        = s.replies ++ [.bookingError] := by
  simp [bookingConfirmationNode, hsel, hmiss]

/-- C6 witness: the amended failure behaviour evaluated on a concrete
state and failure message. -/
theorem bookingFailure_behaviour_witness :
    (bookingConfirmationNode false (.failed "backend down")
        bookingCexState).bookingStatus = "failed" ∧
    (bookingConfirmationNode false (.failed "backend down")
        bookingCexState).lastError = bookingCexState.lastError ∧
    (bookingConfirmationNode false (.failed "backend down")
        bookingCexState).bookingDetails = bookingCexState.bookingDetails ∧
    (bookingConfirmationNode false (.failed "backend down")
        bookingCexState).replies = bookingCexState.replies ++ [.bookingError] :=
  bookingFailure_behaviour false "backend down" bookingCexState
    (sampleDriver 1) rfl rfl

/-- C5 counterexample: with a booking intent on a state with no trip
details at all (`pickup_city` unset), `EntryNode`'s router sends the turn
straight to the booking handler, not to the slot collector; likewise a
"more" intent goes straight to pagination. -/
theorem router_booking_bypasses_slot_collector :
    determineNextNode "booking" none = "booking_confirmation_node" ∧
    determineNextNode "booking" none ≠ "trip_info_collection_node" ∧
    determineNextNode "more_results" none = "pagination_node" := by
  refine ⟨rfl, by decide, rfl⟩

/-- C5 amended: the only gatekeeping in `EntryNode._determine_next_node`
is on the pickup city and only for search and filter intents (routing them
to city clarification when it is unset); booking, more-results and
driver-info intents are routed directly to their handlers with no
trip-completeness check. -/
theorem router_gatekeeps_only_city (p : Option String) :
    determineNextNode "search" p =
      (if strTruthy p then "driver_search_node"
       else "city_clarification_node") ∧
    determineNextNode "filter" p =
      (if strTruthy p then "filter_application_node"
       else "city_clarification_node") ∧
    determineNextNode "booking" p = "booking_confirmation_node" ∧
    determineNextNode "more_results" p = "pagination_node" ∧
    determineNextNode "driver_info" p = "driver_details_node" := by
  cases hp : strTruthy p <;> simp [determineNextNode, hp]

/-- C3 counterexample: on a state with existing results and an active
gender filter, a cached page of five matching drivers makes the handler
present exactly the client-side filtered cache with zero fresh backend
searches issued. -/
theorem filterApplication_presents_clientSide_filtering :
    (filterApplicationNode filterCexState (some cachedFivePage)
        (.err "unused")).backendSearchCalls = 0 ∧
    (filterApplicationNode filterCexState (some cachedFivePage)
        (.err "unused")).currentDrivers
      = cacheFilterDrivers cachedFivePage [.gender "male"] := by
  refine ⟨rfl, rfl⟩

/-- C3 amended: on a state with existing results and a readable cached
page, `FilterApplicationNode` first filters the cached page client-side;
when that yields at least `MIN_RESULTS_THRESHOLD` drivers, or no further
pages exist, no backend search is issued and the client-side filtered set
is presented; only when the filtered count is below the threshold while
`has_more_results` holds does it issue exactly one fresh backend search
with the combined filters at the current page. -/
theorem filterApplication_cache_first (s : FilterAppState)
    (raw : List Driver) (topUp : SearchOutcome)
    (hcd : s.currentDrivers ≠ []) :
    (MIN_RESULTS_THRESHOLD ≤ (cacheFilterDrivers raw s.activeFilters).length ∨
        s.hasMoreResults = false →
      (filterApplicationNode s (some raw) topUp).backendSearchCalls = 0 ∧
      (filterApplicationNode s (some raw) topUp).currentDrivers
        = cacheFilterDrivers raw s.activeFilters) ∧
    ((cacheFilterDrivers raw s.activeFilters).length < MIN_RESULTS_THRESHOLD →
      s.hasMoreResults = true →
      (filterApplicationNode s (some raw) topUp).backendSearchCalls = 1) := by
  constructor
  · intro h
    have hcond : ¬((cacheFilterDrivers raw s.activeFilters).length
        < MIN_RESULTS_THRESHOLD ∧ s.hasMoreResults = true) := by
      rcases h with h | h
      · exact fun hc => absurd hc.1 (not_lt.mpr h)
      · exact fun hc => by simp [h] at hc
    simp only [filterApplicationNode, getDriversWithUserFilterViaCacheTool,
      if_neg hcd]
    rw [if_neg]
    · simp
    · simpa [Bool.and_eq_true, decide_eq_true_iff] using hcond
  · intro hlow hmore
    simp only [filterApplicationNode, getDriversWithUserFilterViaCacheTool,
      if_neg hcd]
    rw [if_pos]
    · cases topUp <;> simp
    · simp [hlow, hmore]

/-- C3 witness: the amended dichotomy evaluated on the concrete
five-driver cached page. -/
theorem filterApplication_cache_first_witness :
    (MIN_RESULTS_THRESHOLD ≤
        (cacheFilterDrivers cachedFivePage filterCexState.activeFilters).length ∨
        filterCexState.hasMoreResults = false →
      (filterApplicationNode filterCexState (some cachedFivePage)
          (.err "unused")).backendSearchCalls = 0 ∧
      (filterApplicationNode filterCexState (some cachedFivePage)
          (.err "unused")).currentDrivers
        = cacheFilterDrivers cachedFivePage filterCexState.activeFilters) ∧
    ((cacheFilterDrivers cachedFivePage filterCexState.activeFilters).length
        < MIN_RESULTS_THRESHOLD →
      filterCexState.hasMoreResults = true →
      (filterApplicationNode filterCexState (some cachedFivePage)
          (.err "unused")).backendSearchCalls = 1) :=
  filterApplication_cache_first filterCexState cachedFivePage
    (.err "unused") (by decide)

/-- C8 counterexample: with an SUV filter yielding three cached matches
(below the threshold of five) and `has_more_results` set, the single
top-up fetch returning two new drivers makes the handler present exactly
those two fresh drivers — the first cached match is filtered in by the
cache tool yet absent from the presented set, so no deduplicated merge of
the two result sets is formed. -/
theorem filterTopUp_replaces_instead_of_merging :
    (filterApplicationNode filterLowState (some lowCachedPage)
        lowTopUp).backendSearchCalls = 1 ∧
    (filterApplicationNode filterLowState (some lowCachedPage)
        lowTopUp).currentDrivers = [sampleDriver 4, sampleDriver 5] ∧
    sampleDriver 1 ∈ cacheFilterDrivers lowCachedPage
        filterLowState.activeFilters ∧
    sampleDriver 1 ∉ (filterApplicationNode filterLowState
        (some lowCachedPage) lowTopUp).currentDrivers := by
  refine ⟨rfl, rfl, by decide, by decide⟩

/-- C8 amended: when the client-side filtered count is below the threshold
while more pages exist, exactly one additional top-up fetch is performed
and fetching stops; the drivers presented afterwards are the top-up
fetch's page when it succeeds, and the client-side filtered cache on
failure — the two result sets are never merged or deduplicated. -/
theorem filterTopUp_single_fetch (s : FilterAppState) (raw : List Driver)
    (topUp : SearchOutcome) (hcd : s.currentDrivers ≠ [])
    (hlow : (cacheFilterDrivers raw s.activeFilters).length
      < MIN_RESULTS_THRESHOLD)
    (hmore : s.hasMoreResults = true) :
    (filterApplicationNode s (some raw) topUp).backendSearchCalls = 1 ∧
    (filterApplicationNode s (some raw) topUp).currentDrivers
      = (match topUp with
         | .ok page => page.drivers
         | .err _ => cacheFilterDrivers raw s.activeFilters) := by
  simp only [filterApplicationNode, getDriversWithUserFilterViaCacheTool,
    if_neg hcd]
  rw [if_pos]
  · cases topUp <;> simp
  · simp [hlow, hmore]

/-- C8 witness: the amended single-fetch behaviour evaluated on the
concrete below-threshold scenario. -/
theorem filterTopUp_single_fetch_witness :
    (filterApplicationNode filterLowState (some lowCachedPage)
        lowTopUp).backendSearchCalls = 1 ∧
    (filterApplicationNode filterLowState (some lowCachedPage)
        lowTopUp).currentDrivers
      = (match lowTopUp with
         | .ok page => page.drivers
         | .err _ => cacheFilterDrivers lowCachedPage
             filterLowState.activeFilters) :=
  filterTopUp_single_fetch filterLowState lowCachedPage lowTopUp
    (by decide) (by decide) rfl

/-- Helper: no run of `MoreDriversNode` ever shrinks the accumulated
`all_drivers` collection. -/
theorem moreDrivers_allDrivers_mono (s : MoreState) (o : SearchOutcome) :
    s.allDrivers.length ≤ (moreDriversNode s o).s.allDrivers.length := by
  unfold moreDriversNode
  repeat' split
  all_goals simp

/-- C4: while `has_more_results` holds on an active search, a successful
non-empty fetch makes `MoreDriversNode` request page `current_page + 1`,
append the projected new page to `all_drivers` (never replacing it), and
set `current_drivers` to exactly the new page; moreover every run of the
node, whatever its outcome, leaves `all_drivers` at least as long as
before, so its size is non-decreasing across consecutive "more" calls. -/
theorem moreDrivers_appends_never_replaces (s : MoreState)
    (page : SearchPage) (hcity : strTruthy s.searchCity = true)
    (hmore : s.hasMoreResults = true) (hne : page.drivers ≠ []) :
    (moreDriversNode s (.ok page)).requestedPage = some (s.currentPage + 1) ∧
    (moreDriversNode s (.ok page)).s.currentPage = s.currentPage + 1 ∧
    (moreDriversNode s (.ok page)).s.allDrivers
      = s.allDrivers ++ driverEntries page.drivers ∧
    (moreDriversNode s (.ok page)).s.currentDrivers
      = driverEntries page.drivers ∧
    (∀ (t : MoreState) (o : SearchOutcome),
        t.allDrivers.length ≤ (moreDriversNode t o).s.allDrivers.length) := by
  refine ⟨?_, ?_, ?_, ?_, moreDrivers_allDrivers_mono⟩ <;>
    simp [moreDriversNode, hcity, hmore, hne]

/-- C4 witness: the pagination behaviour evaluated on a concrete state
holding one accumulated driver and a fetched page of two drivers. -/
theorem moreDrivers_appends_never_replaces_witness :
    (moreDriversNode moreWitState (.ok moreWitPage)).requestedPage
      = some (moreWitState.currentPage + 1) ∧
    (moreDriversNode moreWitState (.ok moreWitPage)).s.currentPage
      = moreWitState.currentPage + 1 ∧
    (moreDriversNode moreWitState (.ok moreWitPage)).s.allDrivers
      = moreWitState.allDrivers ++ driverEntries moreWitPage.drivers ∧
    (moreDriversNode moreWitState (.ok moreWitPage)).s.currentDrivers
      = driverEntries moreWitPage.drivers ∧
    (∀ (t : MoreState) (o : SearchOutcome),
        t.allDrivers.length ≤ (moreDriversNode t o).s.allDrivers.length) :=
  moreDrivers_appends_never_replaces moreWitState moreWitPage
    rfl rfl (by decide)

/-- Helper: a history ending in three same-category failures makes
`_is_retryable_context` refuse the retry, whatever the conversation
state. -/
theorem isRetryableContext_false_of_lastThree (cs : Option String)
    (h : List String) (hh : lastThreeSameCategory h = true) :
    isRetryableContext cs h = false := by
  unfold lastThreeSameCategory at hh
  split at hh
  · rename_i hlen
    unfold isRetryableContext
    by_cases hcs : (cs == some "booking_complete" ||
        cs == some "conversation_ended") = true
    · rw [if_pos hcs]
    · rw [if_neg hcs, if_pos hlen]
      cases hdrop : h.drop (h.length - 3) with
      | nil => rw [hdrop] at hh; simp at hh
      | cons c rest =>
          rw [hdrop] at hh
          have hall : (rest.all fun x => x == c) = true := hh
          simp [hall]
  · simp at hh

/-- C7 counterexample: with three recorded consecutive `api_error`
failures and a fresh retryable API error, the error handler refuses the
retry but routes the turn to `wait_for_user_input` — not to the manual
assistance node — and resets the retry counter. -/
theorem errorHandler_waits_not_manual_after_three :
    (errorHandlerNode threeApiFailState).nextNode = "wait_for_user_input" ∧
    (errorHandlerNode threeApiFailState).nextNode
        ≠ "manual_assistance_node" ∧
    (errorHandlerNode threeApiFailState).retryCount = 0 := by
  refine ⟨rfl, by decide, rfl⟩

/-- C7 amended: after three consecutive failures of one category, the
error handler disables retry regardless of the category's retry flag and
routes the turn to wait-for-user-input with the retry counter reset; the
manual-assistance route is not taken by this handler. -/
theorem errorHandler_disables_retry_after_three (s : ErrHState)
    (h : lastThreeSameCategory s.errorHistory = true) :
    (errorHandlerNode s).nextNode = "wait_for_user_input" ∧
    (errorHandlerNode s).retryCount = 0 := by
  have hret := isRetryableContext_false_of_lastThree s.conversationState
    s.errorHistory h
  unfold errorHandlerNode
  simp [hret]

/-- C7 witness: the retry-disable behaviour evaluated on the concrete
three-failure state. -/
theorem errorHandler_disables_retry_after_three_witness :
    (errorHandlerNode threeApiFailState).nextNode = "wait_for_user_input" ∧
    (errorHandlerNode threeApiFailState).retryCount = 0 :=
  errorHandler_disables_retry_after_three threeApiFailState (by decide)

/-- Helper: the reply guarantee of `process_message` always leaves an
assistant message in the conversation. -/
theorem ensureAIReply_has_ai (first : Msg) (res : List Msg) :
    (ensureAIReply first res).any Msg.isAI = true := by
  unfold ensureAIReply
  split
  · rename_i hcond
    obtain ⟨m, hm, hprop⟩ := List.any_eq_true.mp hcond
    refine List.any_eq_true.mpr ⟨m, hm, ?_⟩
    cases hAI : m.isAI
    · rw [hAI] at hprop; simp at hprop
    · rfl
  · simp [fallbackReply, Msg.isAI]

/-- C9: every processed turn ends with at least one assistant reply in
the resulting conversation, whatever messages the graph run produced (the
post-processing appends a fallback reply when none is found); and a
successful search returning zero drivers takes the normal success path:
`current_drivers` is left empty, a listing reply is appended, `last_error`
is untouched and the turn routes to the no-results handler instead of an
error stage. -/
theorem turn_always_ends_with_reply :
    (∀ (prior : List Msg) (u : String) (g : List Msg → List Msg),
        (processMessage prior u g).any Msg.isAI = true) ∧
    (∀ s : SearchState,
        (driverSearchNode s (.ok zeroPage)).currentDrivers = [] ∧
        (driverSearchNode s (.ok zeroPage)).lastError = s.lastError ∧
        (driverSearchNode s (.ok zeroPage)).replies
          = s.replies ++ [.searchResults] ∧
        (driverSearchNode s (.ok zeroPage)).nextNode
          = "no_results_handler_node") := by
  constructor
  · intro prior u g
    exact ensureAIReply_has_ai _ _
  · intro s
    refine ⟨rfl, rfl, rfl, rfl⟩

/-- C10: the cache key of `DriversAPIClient` is built from the session,
city and page only, so a second `get_drivers` call with `use_cache` for
the same triple — while the first call's entry is still cached — returns
the first call's response unchanged, whatever its filter arguments and
whatever the backend would now answer. -/
theorem cacheHit_ignores_filters (cache : Cache) (sid city : String)
    (page : Nat) (F G : List Filter)
    (httpF httpG : List Filter → HttpOutcome) (resp : CachedResponse)
    (hmiss : cache.lookup (generateCacheKey sid city page) = none)
    (hhttp : httpF F = .ok resp) (hsucc : resp.success = true) :
    (getDrivers cache sid city page F true httpF).data = some resp ∧
    (getDrivers (getDrivers cache sid city page F true httpF).cache
        sid city page G true httpG).data = some resp ∧
    (getDrivers (getDrivers cache sid city page F true httpF).cache
        sid city page G true httpG).cache
      = (getDrivers cache sid city page F true httpF).cache := by
  have h1 : getDrivers cache sid city page F true httpF =
      { success := true, data := some resp, message := none,
        cache := (generateCacheKey sid city page, resp) :: cache } := by
    simp [getDrivers, hmiss, fetchAndCache, hhttp, hsucc]
  refine ⟨by rw [h1], ?_, ?_⟩ <;> rw [h1] <;> simp [getDrivers, List.lookup]

/-- C10 witness: the cache-hit behaviour evaluated on an empty cache, a
male-gender filtered first call and a female-gender filtered second call
whose backend would fail. -/
theorem cacheHit_ignores_filters_witness :
    (getDrivers [] "s1" "delhi" 1 [.gender "male"] true
        (fun _ => .ok witResp)).data = some witResp ∧
    (getDrivers (getDrivers [] "s1" "delhi" 1 [.gender "male"] true
          (fun _ => .ok witResp)).cache
        "s1" "delhi" 1 [.gender "female"] true
        (fun _ => .requestError "backend down")).data = some witResp ∧
    (getDrivers (getDrivers [] "s1" "delhi" 1 [.gender "male"] true
          (fun _ => .ok witResp)).cache
        "s1" "delhi" 1 [.gender "female"] true
        (fun _ => .requestError "backend down")).cache
      = (getDrivers [] "s1" "delhi" 1 [.gender "male"] true
          (fun _ => .ok witResp)).cache :=
  cacheHit_ignores_filters [] "s1" "delhi" 1 [.gender "male"]
    [.gender "female"] (fun _ => .ok witResp)
    (fun _ => .requestError "backend down") witResp rfl rfl rfl

end CabBot
